import Mathlib

/-!
Verification of the `r` directory-watching command runner (src/main.rs)
against its natural-language specification.

The program is shallowly embedded: external effects (the inotify channel,
subprocess spawning, console writes) are modelled as explicit oracle inputs
and an explicit trace of `Action`s, and the infinite watch loop is unfolded
along a finite schedule of deliveries from the notification channel.
-/

namespace R

/-- The `Mode` enum, src/main.rs lines 119-124. -/
inductive Mode where
  | Rust
  | Make
  | Custom
deriving DecidableEq, Repr

/-- The terminal-clear escape sequence `CLEAR`, src/main.rs line 11. -/
def CLEAR : String := "\x1b[2J\x1b[1;1H"

/-- Default command for `Mode::Rust`, src/main.rs line 26. -/
def defaultRustCommand : String := "cargo fmt; clear; cargo clippy --color always -q"

/-- Default command for `Mode::Make`, src/main.rs line 31. -/
def defaultMakeCommand : String := "make -s"

/-- The `(command, directories)` resolution of `Runner::new`, src/main.rs
lines 23-40.  The `expect` on a missing command in `Mode::Custom` is modelled
as `Except.error` carrying the panic message. -/
def resolveConfig (mode : Mode) (command : Option String)
    (directories : Option (List String)) : Except String (String × List String) :=
  match mode with
  | Mode.Rust =>
      Except.ok (command.getD defaultRustCommand, directories.getD ["src"])
  | Mode.Make =>
      Except.ok (command.getD defaultMakeCommand, directories.getD ["src", "."])
  | Mode.Custom =>
      match command with
      | none => Except.error "Command needs to be present for custom mode"
      | some c => Except.ok (c, directories.getD ["src", "."])

/-- The watch-registration loop of `Runner::new`, src/main.rs lines 42-46.
`ok d` is the oracle for whether `inotify.watches().add(&d, MODIFY)`
succeeds.  Returns the successfully registered paths (in order) and the
warning lines printed to standard error (in order). -/
def addWatches (directories : List String) (ok : String → Bool) :
    List String × List String :=
  match directories with
  | [] => ([], [])
  | d :: rest =>
      let r := addWatches rest ok
      if ok d then (d :: r.1, r.2) else (r.1, ("Failed to watch " ++ d) :: r.2)

/-- The mode selection of `main`, src/main.rs lines 84-87: a present command
forces `Mode::Custom`, otherwise the guessed mode is used. -/
def chooseMode (command : Option String) (guessed : Mode) : Mode :=
  match command with
  | none => guessed
  | some _ => Mode.Custom

/-- `guess_mode_by_current_directory`, src/main.rs lines 93-117, over the
list of file names found at depth at most 1 of the current directory. -/
def guess_mode_by_current_directory (entries : List String) : Mode :=
  let cargo_toml_found := entries.contains "Cargo.toml"
  let makefile_found := entries.contains "Makefile"
  if cargo_toml_found then Mode.Rust
  else if makefile_found then Mode.Make
  else Mode.Custom

/-- The captured output of a finished subprocess: the buffered stdout and
stderr bytes of `std::process::Output`. -/
structure CmdOutput where
  stdout : List Nat
  stderr : List Nat
deriving DecidableEq, Repr

/-- One observable console or channel action of the runner. -/
inductive Action where
  /-- A `println!` line on standard output (newline appended). -/
  | printlnStdout (s : String)
  /-- An `eprintln!` line on standard error (newline appended). -/
  | printlnStderr (s : String)
  /-- Spawning the subshell `sh -c cmd` and waiting for it to finish
  (the attempt is recorded whether or not the spawn succeeds). -/
  | spawnWait (cmd : String)
  /-- A `write_all` of captured bytes to standard output. -/
  | writeStdout (bytes : List Nat)
  /-- A `write_all` of captured bytes to standard error. -/
  | writeStderr (bytes : List Nat)
  /-- The `read_events_blocking` call at src/main.rs line 57; `suspended`
  records whether the call had to wait for a delivery. -/
  | nextBatchRead (suspended : Bool)
  /-- The `read_events_blocking` call at src/main.rs line 64; `suspended`
  records whether the call had to wait for a delivery. -/
  | drainRead (suspended : Bool)
deriving DecidableEq, Repr

/-- `Runner::run_command`, src/main.rs lines 68-78.  `spawnResult` is the
oracle for `Command::new("sh").arg("-c").arg(command).output()`: `some o`
for `Ok(o)`, `none` for `Err(_)`.  On `Err` the `if let Ok` body is skipped,
so nothing further is printed or written. -/
def run_command (command : String) (spawnResult : Option CmdOutput) : List Action :=
  Action.printlnStdout CLEAR ::
    Action.spawnWait command ::
      match spawnResult with
      | some o => [Action.writeStdout o.stdout, Action.writeStderr o.stderr]
      | none => []

/-- The `for _event in events` body of src/main.rs lines 61-63: one
`run_command` call per event of the batch, consuming successive spawn
oracle values starting at index `k`. -/
def runBatch (command : String) (spawns : Nat → Option CmdOutput) (k : Nat) :
    List Nat → List Action
  | [] => []
  | _e :: rest => run_command command (spawns k) ++ runBatch command spawns (k + 1) rest

/-- How the loop ends within a finite schedule of deliveries. -/
inductive Outcome where
  /-- The loop is parked inside a blocking read and no further delivery is
  scheduled. -/
  | blocked
  /-- An `expect` fired and the process terminated with a panic. -/
  | panicked (msg : String)
deriving DecidableEq, Repr

/-- A schedule of the notification channel: each entry is what one
`read_events_blocking` call receives.  The `Bool` says whether that
delivery was already queued when the call was made (`true`: the call
returns at once; `false`: the call suspends until the delivery arrives).
The result is the batch of modification events (abstract event ids) or an
I/O error. -/
abbrev Sched := List (Bool × Except String (List Nat))

/-- The infinite `loop` of `Runner::run`, src/main.rs lines 54-65, unfolded
along a finite schedule.  Each iteration performs a blocking read (line 57,
`expect` panics on error), runs the command once per event of the batch
(lines 61-63), then performs a second blocking read whose result, error
included, is discarded (line 64). -/
def loop (command : String) (spawns : Nat → Option CmdOutput) (k : Nat) :
    Sched → List Action × Outcome
  | [] => ([Action.nextBatchRead true], Outcome.blocked)
  | (q1, Except.error _) :: _ =>
      ([Action.nextBatchRead (!q1)], Outcome.panicked "Error while reading events")
  | [(q1, Except.ok batch)] =>
      (Action.nextBatchRead (!q1) :: runBatch command spawns k batch ++
        [Action.drainRead true], Outcome.blocked)
  | (q1, Except.ok batch) :: (q2, _) :: rest =>
      let r := loop command spawns (k + batch.length) rest
      (Action.nextBatchRead (!q1) :: runBatch command spawns k batch ++
        Action.drainRead (!q2) :: r.1, r.2)

/-- `Runner::run`, src/main.rs lines 51-66: print the command line, run it
once, then enter the loop. -/
def run (command : String) (spawns : Nat → Option CmdOutput) (sched : Sched) :
    List Action × Outcome :=
  let l := loop command spawns 1 sched
  (Action.printlnStdout command :: run_command command (spawns 0) ++ l.1, l.2)

/-- `main` followed by `Runner::new` and `Runner::run` (src/main.rs lines
20-49 and 81-91), for an already-chosen mode: resolve the configuration
(`Except.error` is the `Starting`-phase panic), register the watches
(emitting the warnings to standard error), then run. -/
def runner_program (mode : Mode) (command : Option String)
    (directories : Option (List String)) (ok : String → Bool)
    (spawns : Nat → Option CmdOutput) (sched : Sched) :
    Except String (List Action × Outcome) :=
  match resolveConfig mode command directories with
  | Except.error e => Except.error e
  | Except.ok cd =>
      let w := addWatches cd.2 ok
      let r := run cd.1 spawns sched
      Except.ok (w.2.map Action.printlnStderr ++ r.1, r.2)

/-- Number of command executions (subshell spawn attempts) in a trace. -/
def countRuns (tr : List Action) : Nat :=
  tr.countP fun a =>
    match a with
    | Action.spawnWait _ => true
    | _ => false

/-- Lines printed to standard error in a trace. -/
def stderrLogs (tr : List Action) : List String :=
  tr.filterMap fun a =>
    match a with
    | Action.printlnStderr s => some s
    | _ => none

/-- Whether an action is a read on the notification channel. -/
def isRead : Action → Bool
  | Action.nextBatchRead _ => true
  | Action.drainRead _ => true
  | _ => false

/-- Number of command executions before the first read on the notification
channel. -/
def runsBeforeFirstRead (tr : List Action) : Nat :=
  countRuns (tr.takeWhile fun a => ! isRead a)

/-- An all-failing spawn oracle, for concrete instantiations. -/
def noSpawn : Nat → Option CmdOutput := fun _ => none

/-- An all-succeeding watch-registration oracle. -/
def allOk : String → Bool := fun _ => true

/-- A watch-registration oracle that succeeds only on the path `src`. -/
def okSrc : String → Bool := fun d => d == "src"

/-! ## General lemmas -/

theorem countRuns_append (l1 l2 : List Action) :
    countRuns (l1 ++ l2) = countRuns l1 + countRuns l2 := by
  simp [countRuns, List.countP_append]

theorem countRuns_run_command (c : String) (s : Option CmdOutput) :
    countRuns (run_command c s) = 1 := by
  cases s <;> simp [run_command, countRuns, List.countP_cons]

theorem countRuns_runBatch (c : String) (sp : Nat → Option CmdOutput)
    (k : Nat) (b : List Nat) :
    countRuns (runBatch c sp k b) = b.length := by
  induction b generalizing k with
  | nil => simp [runBatch, countRuns]
  | cons e rest ih =>
      simp [runBatch, countRuns_append, countRuns_run_command, ih]
      omega

theorem takeWhile_notRead_loop (c : String) (sp : Nat → Option CmdOutput) (k : Nat)
    (sched : Sched) :
    ((loop c sp k sched).1).takeWhile (fun a => ! isRead a) = [] := by
  match sched with
  | [] => simp [loop, isRead]
  | (q1, Except.error m) :: rest => simp [loop, isRead]
  | [(q1, Except.ok b)] => simp [loop, isRead]
  | (q1, Except.ok b) :: (q2, r2) :: rest => simp [loop, isRead]

theorem runsBefore_loop (c : String) (sp : Nat → Option CmdOutput) (k : Nat) (sched : Sched) :
    runsBeforeFirstRead (loop c sp k sched).1 = 0 := by
  rw [runsBeforeFirstRead, takeWhile_notRead_loop]
  rfl

theorem runsBefore_cons_printlnStdout (s : String) (tr : List Action) :
    runsBeforeFirstRead (Action.printlnStdout s :: tr) = runsBeforeFirstRead tr := by
  simp [runsBeforeFirstRead, List.takeWhile_cons, isRead, countRuns, List.countP_cons]

theorem runsBefore_cons_printlnStderr (s : String) (tr : List Action) :
    runsBeforeFirstRead (Action.printlnStderr s :: tr) = runsBeforeFirstRead tr := by
  simp [runsBeforeFirstRead, List.takeWhile_cons, isRead, countRuns, List.countP_cons]

theorem runsBefore_cons_spawnWait (s : String) (tr : List Action) :
    runsBeforeFirstRead (Action.spawnWait s :: tr) = runsBeforeFirstRead tr + 1 := by
  simp [runsBeforeFirstRead, List.takeWhile_cons, isRead, countRuns, List.countP_cons]

theorem runsBefore_cons_writeStdout (b : List Nat) (tr : List Action) :
    runsBeforeFirstRead (Action.writeStdout b :: tr) = runsBeforeFirstRead tr := by
  simp [runsBeforeFirstRead, List.takeWhile_cons, isRead, countRuns, List.countP_cons]

theorem runsBefore_cons_writeStderr (b : List Nat) (tr : List Action) :
    runsBeforeFirstRead (Action.writeStderr b :: tr) = runsBeforeFirstRead tr := by
  simp [runsBeforeFirstRead, List.takeWhile_cons, isRead, countRuns, List.countP_cons]

theorem runsBeforeFirstRead_run (c : String) (sp : Nat → Option CmdOutput) (sched : Sched) :
    runsBeforeFirstRead (run c sp sched).1 = 1 := by
  cases h : sp 0 <;>
    simp only [run, run_command, h, List.cons_append, List.nil_append,
      runsBefore_cons_printlnStdout, runsBefore_cons_spawnWait,
      runsBefore_cons_writeStdout, runsBefore_cons_writeStderr, runsBefore_loop]

theorem runsBeforeFirstRead_map_stderr (ws : List String) (tr : List Action) :
    runsBeforeFirstRead (ws.map Action.printlnStderr ++ tr) = runsBeforeFirstRead tr := by
  induction ws with
  | nil => simp
  | cons w rest ih => simp [runsBefore_cons_printlnStderr, ih]

theorem addWatches_eq (dirs : List String) (ok : String → Bool) :
    addWatches dirs ok
      = (dirs.filter ok,
         (dirs.filter fun x => ! ok x).map fun x => "Failed to watch " ++ x) := by
  induction dirs with
  | nil => rfl
  | cons d rest ih =>
      by_cases h : ok d <;> simp [addWatches, ih, List.filter_cons, h]

/-! ## Claim theorems -/

/-- C1 counterexample: a single wake-up whose batch holds the two raw
modification events `0` and `1` triggers two command executions, not the
single execution the claim asserts for the whole batch.  The `for` loop of
src/main.rs lines 61-63 calls `run_command` once per event. -/
theorem c1_per_event_counterexample :
    countRuns (loop "cmd" noSpawn 1 [(true, Except.ok [0, 1])]).1 = 2
    ∧ countRuns (loop "cmd" noSpawn 1 [(true, Except.ok [0, 1])]).1 ≠ 1 := by
  constructor <;> decide

/-- C1 (amended): for every batch returned by a single blocking wait while
`Running`, the watch loop triggers one command execution per event of the
batch (a batch of N events yields N executions), and the subsequent drain
read of the iteration contributes no further executions. -/
theorem c1_runs_per_event (command : String) (spawns : Nat → Option CmdOutput)
    (k : Nat) (q : Bool) (batch : List Nat) :
    countRuns (loop command spawns k [(q, Except.ok batch)]).1 = batch.length := by
  simp [loop, countRuns, List.countP_append, List.countP_cons]
  have := countRuns_runBatch command spawns k batch
  simp [countRuns] at this
  omega

/-- C2: two modification events whose second is delivered only by the
blocking wait after the first iteration completed its post-run drain (the
drain consumed the intervening delivery `d`) yield exactly two command
executions, whatever the drained delivery and the queueing flags were. -/
theorem c2_separate_runs (command : String) (spawns : Nat → Option CmdOutput)
    (k : Nat) (q1 q2 q3 : Bool) (e1 e2 : Nat) (d : List Nat) :
    countRuns (loop command spawns k
      [(q1, Except.ok [e1]), (q2, Except.ok d), (q3, Except.ok [e2])]).1 = 2 := by
  simp [loop, countRuns, List.countP_append, List.countP_cons, runBatch, run_command]
  cases spawns k <;> cases spawns (k + 1) <;> simp [List.countP_cons]

/-- C3 counterexample: with nothing queued at drain time (`false` flag) and
one further event arriving later, the post-run drain of src/main.rs line 64
suspends (it is `read_events_blocking`, a blocking call), consumes that
later event and discards it: only one execution happens.  The claim asserts
control returns to the `next_batch` wait without suspending on the drain,
which would have let the later event trigger a second execution. -/
theorem c3_drain_suspends_counterexample :
    Action.drainRead true
        ∈ (loop "cmd" noSpawn 1 [(true, Except.ok [0]), (false, Except.ok [1])]).1
    ∧ countRuns (loop "cmd" noSpawn 1 [(true, Except.ok [0]), (false, Except.ok [1])]).1
        = 1 := by
  constructor <;> decide

/-- C3 (amended): the post-run drain is itself a blocking read: whenever no
events are queued at drain time, the loop suspends on the drain until the
next delivery arrives and discards that delivery without triggering any
execution, so the `next_batch` wait is not the sole suspension point. -/
theorem c3_drain_blocking (command : String) (spawns : Nat → Option CmdOutput)
    (k : Nat) (q1 : Bool) (batch d : List Nat) :
    countRuns (loop command spawns k
        [(q1, Except.ok batch), (false, Except.ok d)]).1 = batch.length
    ∧ Action.drainRead true
        ∈ (loop command spawns k [(q1, Except.ok batch), (false, Except.ok d)]).1 := by
  constructor
  · simp [loop, countRuns, List.countP_append, List.countP_cons]
    have := countRuns_runBatch command spawns k batch
    simp [countRuns] at this
    omega
  · simp [loop]

/-- C4 counterexample: when spawning the subshell fails, `run_command`
(src/main.rs lines 68-78) emits nothing on standard error (the `if let Ok`
silently skips the failure), contradicting the logging the claim asserts;
and an error from the blocking event read (src/main.rs line 60) hits an
`expect` and terminates the process, contradicting that no Running-state
failure is fatal. -/
theorem c4_silent_skip_counterexample :
    stderrLogs (run_command "cmd" none) = []
    ∧ run_command "cmd" none = [Action.printlnStdout CLEAR, Action.spawnWait "cmd"]
    ∧ (loop "cmd" noSpawn 1 [(true, Except.error "io failure")]).2
        = Outcome.panicked "Error while reading events" :=
  ⟨rfl, rfl, rfl⟩

/-- C4 (amended): a spawn failure is skipped silently — the run produces
only the clear line and the spawn attempt, nothing is logged and the loop
goes on executing later batches whatever the spawn oracle returns — while a
failure of the blocking `next_batch` read panics and terminates the
process, and a failure of the drain read is discarded and the loop
continues. -/
theorem c4_failure_semantics (c m : String) (sp : Nat → Option CmdOutput) (k : Nat)
    (q1 q2 q3 : Bool) (rest : Sched) (b b2 : List Nat) :
    run_command c none = [Action.printlnStdout CLEAR, Action.spawnWait c]
    ∧ (loop c sp k ((q1, Except.error m) :: rest)).2
        = Outcome.panicked "Error while reading events"
    ∧ countRuns (loop c sp k
        [(q1, Except.ok b), (q2, Except.error m), (q3, Except.ok b2)]).1
        = b.length + b2.length
    ∧ (loop c sp k [(q1, Except.ok b), (q2, Except.error m), (q3, Except.ok b2)]).2
        = Outcome.blocked := by
  refine ⟨rfl, rfl, ?_, rfl⟩
  simp [loop, countRuns, List.countP_append, List.countP_cons]
  have h1 := countRuns_runBatch c sp k b
  have h2 := countRuns_runBatch c sp (k + b.length) b2
  simp [countRuns] at h1 h2
  omega

/-- C5: constructing the runner in `Mode::Custom` with no command panics
with a diagnostic (modelled as `Except.error`), for every supplied
directory option; constructing in `Mode::Rust` with no command and no
directories succeeds with the default Rust command and the default
directory list `["src"]`. -/
theorem c5_construction_defaults (dirs : Option (List String)) :
    resolveConfig Mode.Custom none dirs
        = Except.error "Command needs to be present for custom mode"
    ∧ resolveConfig Mode.Rust none none
        = Except.ok ("cargo fmt; clear; cargo clippy --color always -q", ["src"]) :=
  ⟨rfl, rfl⟩

/-- C6 counterexample: with the command `echo hi` present and no
directories supplied, the resolved mode is Custom as claimed, but the
directory list defaults to `["src", "."]` (src/main.rs line 37), not to
`["."]` as the claim asserts. -/
theorem c6_custom_dirs_counterexample :
    chooseMode (some "echo hi") Mode.Rust = Mode.Custom
    ∧ resolveConfig Mode.Custom (some "echo hi") none
        = Except.ok ("echo hi", ["src", "."])
    ∧ resolveConfig Mode.Custom (some "echo hi") none ≠ Except.ok ("echo hi", ["."]) := by
  refine ⟨rfl, rfl, ?_⟩
  simp [resolveConfig]

/-- C6 (amended): whenever a command is present in the merged startup
configuration the resolved mode is Custom, and if no directories were
supplied the watch directory list defaults to `["src", "."]`. -/
theorem c6_custom_mode_dirs (c : String) (g : Mode) :
    chooseMode (some c) g = Mode.Custom
    ∧ resolveConfig Mode.Custom (some c) none = Except.ok (c, ["src", "."]) :=
  ⟨rfl, rfl⟩

/-- C7: for every run whose spawn succeeds, the trace of `run_command` is
exactly: the terminal-clear sequence printed to standard output, then the
subshell spawned and awaited, then the fully buffered captured stdout
written to standard output, then the captured stderr written to standard
error — so the clear precedes the spawn, the writes follow termination in
stdout-then-stderr order, and nothing is streamed while the command runs. -/
theorem c7_output_order (command : String) (o : CmdOutput) :
    run_command command (some o)
      = [Action.printlnStdout CLEAR, Action.spawnWait command,
         Action.writeStdout o.stdout, Action.writeStderr o.stderr] := rfl

/-- C8: for every mode, configuration, watch-registration oracle, spawn
oracle and delivery schedule for which startup succeeds, the produced trace
performs exactly one command execution before the first read on the
notification channel: the initial run happens once, right after the watch
is established and before any filesystem event is read. -/
theorem c8_initial_run_once (mode : Mode) (cmd : Option String)
    (dirs : Option (List String)) (ok : String → Bool)
    (spawns : Nat → Option CmdOutput) (sched : Sched)
    (tr : List Action) (out : Outcome)
    (h : runner_program mode cmd dirs ok spawns sched = Except.ok (tr, out)) :
    runsBeforeFirstRead tr = 1 := by
  unfold runner_program at h
  cases hr : resolveConfig mode cmd dirs with
  | error e => rw [hr] at h; exact absurd h (by simp)
  | ok cd =>
      rw [hr] at h
      simp only [Except.ok.injEq, Prod.mk.injEq] at h
      rw [← h.1, runsBeforeFirstRead_map_stderr]
      exact runsBeforeFirstRead_run cd.1 spawns sched

/-- C8 witness: the Rust-mode program with all watches registered, a
failing spawn oracle and an empty schedule produces this concrete trace,
and it has exactly one execution before the first channel read. -/
theorem c8_initial_run_once_witness :
    runsBeforeFirstRead [Action.printlnStdout defaultRustCommand,
      Action.printlnStdout CLEAR, Action.spawnWait defaultRustCommand,
      Action.nextBatchRead true] = 1 :=
  c8_initial_run_once Mode.Rust none none allOk noSpawn [] _ Outcome.blocked rfl

/-- C9: for every directory list and registration oracle, if registering
the watch for a member path fails, the warning line for that path is
printed to standard error while the registered watch set is exactly the
successfully registering paths — registration of the remaining paths
proceeds and `addWatches` returns normally rather than aborting. -/
theorem c9_watch_failure_warns (dirs : List String) (ok : String → Bool)
    (d : String) (hmem : d ∈ dirs) (hfail : ok d = false) :
    ("Failed to watch " ++ d) ∈ (addWatches dirs ok).2
    ∧ (addWatches dirs ok).1 = dirs.filter ok := by
  rw [addWatches_eq]
  refine ⟨List.mem_map_of_mem _ ?_, rfl⟩
  exact List.mem_filter.mpr ⟨hmem, by simp [hfail]⟩

/-- C9 witness: with directories `["src", "missing"]` and an oracle that
only registers `src`, the warning for `missing` is emitted and `src` is
still watched. -/
theorem c9_watch_failure_warns_witness :
    ("Failed to watch " ++ "missing") ∈ (addWatches ["src", "missing"] okSrc).2
    ∧ (addWatches ["src", "missing"] okSrc).1 = (["src", "missing"].filter okSrc) :=
  c9_watch_failure_warns ["src", "missing"] okSrc "missing" (by decide) (by decide)

/-- C10: when no command is supplied, a directory listing containing
neither `Cargo.toml` nor `Makefile` makes mode detection yield Custom, and
resolving that mode with no command aborts with the diagnostic; and
whenever `Cargo.toml` is present — in particular together with `Makefile`
— detection yields the Rust mode, so `Cargo.toml` takes priority. -/
theorem c10_mode_detection (entries : List String) (dirs : Option (List String)) :
    ("Cargo.toml" ∉ entries → "Makefile" ∉ entries →
       guess_mode_by_current_directory entries = Mode.Custom
       ∧ resolveConfig (chooseMode none (guess_mode_by_current_directory entries)) none dirs
           = Except.error "Command needs to be present for custom mode")
    ∧ ("Cargo.toml" ∈ entries → guess_mode_by_current_directory entries = Mode.Rust) := by
  constructor
  · intro hc hm
    have hcustom : guess_mode_by_current_directory entries = Mode.Custom := by
      simp [guess_mode_by_current_directory, hc, hm]
    exact ⟨hcustom, by rw [hcustom]; rfl⟩
  · intro hc
    simp [guess_mode_by_current_directory, hc]

/-- C10 witness: a listing with only `main.rs` yields Custom and the fatal
diagnostic, and a listing with both marker files yields the Rust mode. -/
theorem c10_mode_detection_witness :
    (guess_mode_by_current_directory ["main.rs"] = Mode.Custom
      ∧ resolveConfig (chooseMode none (guess_mode_by_current_directory ["main.rs"]))
          none none
          = Except.error "Command needs to be present for custom mode")
    ∧ guess_mode_by_current_directory ["Cargo.toml", "Makefile"] = Mode.Rust :=
  ⟨(c10_mode_detection ["main.rs"] none).1 (by decide) (by decide),
   (c10_mode_detection ["Cargo.toml", "Makefile"] none).2 (by decide)⟩

end R
